import Mathlib

/-!
Shallow embedding of the HTTP route-cache core of the repository
(`NewRouteCache`, `Age.toAgeInSeconds`, the `responseReadWriter` response
capture adapter, `httpExecutor` and the orchestrating `Handler`), together
with a model of the cache decision engine that the orchestrator calls.

Conventions of the embedding:
* Go `[]byte` is `List Nat` (bytes are only appended and compared, never
  computed with, so the 0..255 range plays no role).
* Go `time.Duration` (an `int64` count of nanoseconds) is `Int`; Go's
  integer division truncates toward zero, which is `Int.tdiv`.
* Go `http.Header` (`map[string][]string`) is an association list from key
  to value list; `Set` replaces the whole value list, `Add` appends.
  Key canonicalisation is identity in the model (all keys used in the
  development are already in canonical form).
* The mutable TTL store referenced by a `RouteCache` is passed around as
  explicit state (`TTLCache`), and wall-clock reads (`now`,
  `time.Now().Nanosecond()`) are explicit parameters.
* A Go `error` is `Option String` (`none` = nil error), and a function that
  returns `(T, error)` returns the corresponding pair.
-/

/-- Header model: association list from header key to its list of values. -/
abbrev HeaderMap := List (String × List String)

/-- `http.Header.Set`: replace the value list of `k` by the single value
`v`, inserting the key if absent. -/
def headerSet : HeaderMap → String → String → HeaderMap
  | [], k, v => [(k, [v])]
  | (k', vs) :: t, k, v =>
      if k' = k then (k, [v]) :: t else (k', vs) :: headerSet t k v

/-- `http.Header.Add`: append `v` to the value list of `k`, inserting the
key if absent. -/
def headerAdd : HeaderMap → String → String → HeaderMap
  | [], k, v => [(k, [v])]
  | (k', vs) :: t, k, v =>
      if k' = k then (k, vs ++ [v]) :: t else (k', vs) :: headerAdd t k v

/-- The `responseReadWriter` of the source: a response writer that records
the handler's writes. `buffer` is the content of the `bytes.Buffer`,
`len` the `len` field, `header` the header map and `statusCode` the
recorded status code (`0` is Go's zero value for `int`). -/
structure responseReadWriter where
  buffer : List Nat
  len : Nat
  header : HeaderMap
  statusCode : Int
  deriving DecidableEq

/-- `newResponseReadWriter` of the source: fresh buffer, empty header,
all remaining fields at their Go zero values. -/
def newResponseReadWriter : responseReadWriter :=
  { buffer := [], len := 0, header := [], statusCode := 0 }

/-- `bytes.Buffer.Read` into a slice of length `n`: if the buffer is empty
and `n > 0` the result is `io.EOF` (modelled as the string "EOF");
otherwise up to `n` buffered bytes are consumed and returned with a nil
error. Returns (bytes read, error, updated writer). -/
def responseReadWriter.read (rw : responseReadWriter) (n : Nat) :
    List Nat × Option String × responseReadWriter :=
  if rw.buffer.isEmpty ∧ 0 < n then ([], some "EOF", rw)
  else (rw.buffer.take n, none, { rw with buffer := rw.buffer.drop n })

/-- `responseReadWriter.ReadAll` of the source: returns `([], nil)` when
`len = 0`; otherwise allocates a `len`-byte slice, reads into it and
returns the whole slice (bytes not overwritten by the read stay zero)
together with the read error. -/
def responseReadWriter.ReadAll (rw : responseReadWriter) :
    List Nat × Option String × responseReadWriter :=
  if rw.len = 0 then ([], none, rw)
  else
    let r := rw.read rw.len
    (r.1 ++ List.replicate (rw.len - r.1.length) 0, r.2.1, r.2.2)

/-- `responseReadWriter.Write` of the source: appends `p` to the byte
buffer and sets (not accumulates) `len` to `p.length`. `bytes.Buffer.Write`
always succeeds, returning the number of bytes written. -/
def responseReadWriter.Write (rw : responseReadWriter) (p : List Nat) :
    Nat × responseReadWriter :=
  (p.length, { rw with buffer := rw.buffer ++ p, len := p.length })

/-- `responseReadWriter.WriteHeader` of the source: records the status
code. -/
def responseReadWriter.WriteHeader (rw : responseReadWriter) (sc : Int) :
    responseReadWriter :=
  { rw with statusCode := sc }

/-- One step a wrapped HTTP handler can take against the capture adapter:
write a body chunk, record a status code, or set/add a header value. -/
inductive HandlerAction where
  | write (p : List Nat)
  | writeHeader (sc : Int)
  | setHeader (k v : String)
  | addHeader (k v : String)
  deriving DecidableEq

/-- Interpretation of one handler action on the capture adapter. -/
def runAction (rw : responseReadWriter) : HandlerAction → responseReadWriter
  | .write p => (rw.Write p).2
  | .writeHeader sc => rw.WriteHeader sc
  | .setHeader k v => { rw with header := headerSet rw.header k v }
  | .addHeader k v => { rw with header := headerAdd rw.header k v }

/-- Run a wrapped handler, given as its trace of actions, against a capture
adapter state. -/
def runHandler (acts : List HandlerAction) (rw : responseReadWriter) :
    responseReadWriter :=
  acts.foldl runAction rw

/-- Concatenation, in order, of the byte chunks a handler passes to
`Write`; the full body it writes. -/
def writtenBody (acts : List HandlerAction) : List Nat :=
  acts.foldl (fun b a => match a with | .write p => b ++ p | _ => b) []

/-- The `handlerResponse` stored in a cached entry, as built by
`httpExecutor`: the payload bytes and the headers captured from the
handler.  (The captured status code is not part of it.) -/
structure handlerResponse where
  Bytes : List Nat := []
  Header : HeaderMap := []
  deriving DecidableEq

/-- The `response` value produced by an executor, with the fields
`httpExecutor` populates; omitted fields keep their Go zero values. -/
structure response where
  Response : handlerResponse := {}
  LastValid : Int := 0
  Etag : String := ""
  Err : Option String := none
  deriving DecidableEq

/-- Modelled from the spec: `generateETag` is absent from the sources; the
spec describes it as producing an opaque fingerprint string from exactly
the arguments it is given.  `httpExecutor` passes it the cache key and the
nanosecond component of the generation time, so the model fingerprints
that pair. -/
def generateETag (key : String) (nanos : Nat) : String :=
  key ++ "-" ++ toString nanos

/-- The `executor` signature of the source: from the decision time `now`
and the cache key, produce a `response`. -/
abbrev executor := Int → String → response

/-- `httpExecutor` of the source, with the ambient inputs made explicit:
the wrapped handler is its action trace `acts` and the wall-clock
nanosecond reading `time.Now().Nanosecond()` is `nanos`.  It runs the
handler against a fresh capture adapter, extracts the payload with
`ReadAll`, and on a nil error builds the response from the payload, the
captured headers, `now` and a fresh ETag; on a read error it returns a
response carrying only that error. -/
def httpExecutor (acts : List HandlerAction) (nanos : Nat) : executor :=
  fun now key =>
    let rw := runHandler acts newResponseReadWriter
    let r := rw.ReadAll
    match r.2.1 with
    | none =>
        { Response := { Bytes := r.1, Header := rw.header }
          LastValid := now
          Etag := generateETag key nanos
          Err := none }
    | some e => { Err := some e }

/-- `Age` of the source: route cache life-time boundaries, durations in
nanoseconds (Go `time.Duration`). -/
structure Age where
  Min : Int
  Max : Int
  deriving DecidableEq

/-- The internal `age` of the source: the boundaries in whole seconds. -/
structure age where
  min : Int
  max : Int
  deriving DecidableEq

/-- `Age.toAgeInSeconds` of the source: `time.Duration` division by
`time.Second` (10^9 ns), i.e. `int64` division truncating toward zero. -/
def Age.toAgeInSeconds (a : Age) : age :=
  { min := Int.tdiv a.Min 1000000000, max := Int.tdiv a.Max 1000000000 }

/-- The state of the TTL store collaborator: an association list from
cache key to stored entry.  Get is list lookup, set replaces the entry for
the key (per-entry TTL expiry is owned by the store and outside the
model). -/
abbrev TTLCache := List (String × response)

/-- Store a (key, entry) pair, overwriting any previous entry for the
key. -/
def storeSet : TTLCache → String → response → TTLCache
  | [], k, v => [(k, v)]
  | (k', v') :: t, k, v =>
      if k' = k then (k, v) :: t else (k', v') :: storeSet t k v

/-- `RouteCache` of the source: the TTL cache to use (a Go interface
value, `none` models a nil one) and the age bounds in seconds. -/
structure RouteCache where
  cache : Option TTLCache
  age : age
  deriving DecidableEq

/-- `NewRouteCache` of the source: accumulates one error for a nil store
and one for `Min > Max`, and returns the built `RouteCache` (the Go
function always returns a non-nil pointer, hence always `some`) together
with the error list.  The zero-age warning is only a log side effect and
is not modelled. -/
def NewRouteCache (ttlCache : Option TTLCache) (a : Age) :
    Option RouteCache × List String :=
  let errs : List String := []
  let errs := if ttlCache.isNone then errs ++ ["route cache is nil"] else errs
  let errs :=
    if a.Min > a.Max then errs ++ ["max age must always be greater than min age"]
    else errs
  (some { cache := ttlCache, age := a.toAgeInSeconds }, errs)

/-- The request descriptor the cache layer works from: the derived cache
key (a pure function of request identity, folded into the model as a
field) and the parsed client cache-control directives, absent meaning "no
client constraint". -/
structure cacheRequest where
  key : String
  clientMaxAge : Option Int := none
  clientMinFresh : Option Int := none
  deriving DecidableEq

/-- Terminal outcomes of the cache decision engine. -/
inductive outcome where
  | hit
  | miss
  | bypass
  | fail
  deriving DecidableEq

/-- Result of one engine run: the response to serve, the error (nil on
success), the updated store state, the outcome and whether the wrapped
handler was invoked. -/
structure EngineOut where
  rsp : response
  err : Option String
  store : TTLCache
  oc : outcome
  invoked : Bool
  deriving DecidableEq

/-- Modelled from the spec: the effective max-age — the smaller of the
route's configured maximum and any client-supplied max-age, but never
smaller than the route's configured minimum. -/
def effMaxAge (ag : age) (req : cacheRequest) : Int :=
  max ag.min (min ag.max (req.clientMaxAge.getD ag.max))

/-- Modelled from the spec: the effective min-fresh — the client-supplied
min-fresh (absent meaning no constraint, i.e. zero), capped by `max - min`
which the spec designates as the automatic upper threshold for min-fresh
requests. -/
def effMinFresh (ag : age) (req : cacheRequest) : Int :=
  min (ag.max - ag.min) (req.clientMinFresh.getD 0)

/-- Modelled from the spec: the MISS leg of the decision engine — execute
the handler through the executor; on failure surface the error and leave
the store alone, on success store the new entry under the request's key
and serve it. -/
def cacheMiss (exec : executor) (store : TTLCache) (now : Int)
    (req : cacheRequest) : EngineOut :=
  let rsp := exec now req.key
  match rsp.Err with
  | some e => { rsp := {}, err := some e, store := store, oc := .fail, invoked := true }
  | none =>
      { rsp := rsp, err := none, store := storeSet store req.key rsp
        oc := .miss, invoked := true }

/-- Modelled from the spec: the cache decision engine (the `handler`
function the orchestrator calls, absent from the sources).  A route whose
age bounds collapsed to zero bypasses the cache entirely; otherwise a
present entry is served as a HIT when its age is within the effective
max-age and the remaining freshness covers the effective min-fresh, and
every other case is a MISS.  A handler failure surfaces as an error with
the store untouched. -/
def cacheHandler (exec : executor) (ag : age) (store : TTLCache) (now : Int)
    (req : cacheRequest) : EngineOut :=
  if ag.min = 0 ∧ ag.max = 0 then
    let rsp := exec now req.key
    match rsp.Err with
    | some e => { rsp := {}, err := some e, store := store, oc := .fail, invoked := true }
    | none => { rsp := rsp, err := none, store := store, oc := .bypass, invoked := true }
  else
    match List.lookup req.key store with
    | some entry =>
        if now - entry.LastValid ≤ effMaxAge ag req ∧
            effMinFresh ag req ≤ effMaxAge ag req - (now - entry.LastValid) then
          { rsp := entry, err := none, store := store, oc := .hit, invoked := false }
        else cacheMiss exec store now req
    | none => cacheMiss exec store now req

/-- The outgoing response sink supplied by the transport layer (the real
`http.ResponseWriter`): headers, accumulated body, and the explicitly
written status code — `none` when `WriteHeader` was never called on it, in
which case the transport itself defaults the wire status to 200. -/
structure Sink where
  header : HeaderMap := []
  body : List Nat := []
  status : Option Int := none
  deriving DecidableEq

/-- The header-replay loop of the source `Handler`:
`for k, h := range response.Header { w.Header().Set(k, h[0]) }` — every
captured key is set on the sink with only the first of its captured
values. -/
def replayHeaders (sink : HeaderMap) (captured : HeaderMap) : HeaderMap :=
  captured.foldl (fun h kv => headerSet h kv.1 (kv.2.headD "")) sink

/-- Result of the orchestrating `Handler`: the returned error (nil on
success), the final sink, the final store state, and the engine outcome
and handler-invocation flag it went through. -/
structure HandlerOut where
  err : Option String
  sink : Sink
  store : TTLCache
  oc : outcome
  invoked : Bool
  deriving DecidableEq

/-- The source `Handler` body, generic in the executor: run the cache
processor; on error return it wrapped in the
"could not handle request with the cache processor" context with nothing
written to the sink; on success set each response header key to its first
value on the sink and append the response bytes to the sink body (the
sink's own write never fails in the model, and `Handler` never calls
`WriteHeader` on the sink). -/
def HandlerWith (exec : executor) (ag : age) (store : TTLCache) (now : Int)
    (req : cacheRequest) (sink : Sink) : HandlerOut :=
  let eo := cacheHandler exec ag store now req
  match eo.err with
  | some e =>
      { err := some ("could not handle request with the cache processor: " ++ e)
        sink := sink, store := eo.store, oc := eo.oc, invoked := eo.invoked }
  | none =>
      { err := none
        sink :=
          { header := replayHeaders sink.header eo.rsp.Response.Header
            body := sink.body ++ eo.rsp.Response.Bytes
            status := sink.status }
        store := eo.store, oc := eo.oc, invoked := eo.invoked }

/-- `Handler` of the source: the orchestrator applied to the executor that
`httpExecutor` builds from the wrapped HTTP handler. -/
def Handler (acts : List HandlerAction) (nanos : Nat) (ag : age)
    (store : TTLCache) (now : Int) (req : cacheRequest) (sink : Sink) :
    HandlerOut :=
  HandlerWith (httpExecutor acts nanos) ag store now req sink

/-- True when the action trace contains a `writeHeader` step. -/
def hasWriteHeaderAction : List HandlerAction → Bool
  | [] => false
  | .writeHeader _ :: _ => true
  | _ :: t => hasWriteHeaderAction t

/-- True when every action in the trace is a `writeHeader` step, i.e. the
handler writes neither body bytes nor headers. -/
def statusOnlyActions : List HandlerAction → Bool
  | [] => true
  | .writeHeader _ :: t => statusOnlyActions t
  | _ :: _ => false

/-- C2: the capture adapter does not snapshot the full written body: after
the two writes [97, 98] and [99] (full body [97, 98, 99]) the snapshot
taken by `httpExecutor` contains only [97], because `Write` overwrites the
recorded length with the length of the last chunk instead of accumulating
it.  This contradicts the adapter's stated contract of returning the
response payload. -/
theorem c2_multi_write_snapshot_truncated :
    (httpExecutor [.write [97, 98], .write [99]] 0 0 "k").Response.Bytes = [97] ∧
    writtenBody [.write [97, 98], .write [99]] = [97, 98, 99] ∧
    (httpExecutor [.write [97, 98], .write [99]] 0 0 "k").Response.Bytes ≠
      writtenBody [.write [97, 98], .write [99]] := by
  decide

/-- C3 counterexample: with a non-nil store and `Min > Max`,
`NewRouteCache` reports the configuration error but still produces a
cache (the first component is not `none`), refuting "no cache is
produced". -/
theorem c3_counterexample :
    (NewRouteCache (some []) { Min := 2000000000, Max := 1000000000 }).2 =
      ["max age must always be greater than min age"] ∧
    (NewRouteCache (some []) { Min := 2000000000, Max := 1000000000 }).1 ≠ none := by
  decide

/-- C3 amended: for every Age policy with `Min > Max`, construction
reports the configuration error, and the cache is nevertheless produced,
built from the given store and the converted age. -/
theorem c3_min_gt_max_reports_error (c : Option TTLCache) (a : Age)
    (h : a.Min > a.Max) :
    "max age must always be greater than min age" ∈ (NewRouteCache c a).2 ∧
    (NewRouteCache c a).1 = some { cache := c, age := a.toAgeInSeconds } := by
  unfold NewRouteCache
  rcases c with _ | c <;> simp [h]

/-- C3 witness: the amended statement at a concrete invalid policy. -/
theorem c3_witness :
    ({ Min := 2000000000, Max := 1000000000 } : Age).Min >
      ({ Min := 2000000000, Max := 1000000000 } : Age).Max ∧
    ("max age must always be greater than min age" ∈
      (NewRouteCache (some []) { Min := 2000000000, Max := 1000000000 }).2 ∧
    (NewRouteCache (some []) { Min := 2000000000, Max := 1000000000 }).1 =
      some { cache := some [],
             age := Age.toAgeInSeconds { Min := 2000000000, Max := 1000000000 } }) :=
  ⟨by decide,
   c3_min_gt_max_reports_error (some []) { Min := 2000000000, Max := 1000000000 }
     (by decide)⟩

/-- C6 counterexample: a handler that writes a body byte and never calls
`WriteHeader` leaves the adapter's recorded status code at 0, not 200. -/
theorem c6_counterexample :
    (runHandler [.write [104]] newResponseReadWriter).statusCode = 0 ∧
    ((0 : Int) ≠ 200) := by
  decide

/-- Status code recorded by a trace without `writeHeader` steps is
whatever it already was. -/
theorem runHandler_statusCode_of_no_writeHeader (acts : List HandlerAction)
    (rw : responseReadWriter) (h : hasWriteHeaderAction acts = false) :
    (runHandler acts rw).statusCode = rw.statusCode := by
  induction acts generalizing rw with
  | nil => rfl
  | cons a t ih =>
      cases a with
      | write p => exact ih ((rw.Write p).2) h
      | writeHeader sc => simp [hasWriteHeaderAction] at h
      | setHeader k v => exact ih _ h
      | addHeader k v => exact ih _ h

/-- C6 amended: for every handler execution that never calls
`WriteHeader`, the status code recorded by the capture adapter is 0 (the
Go zero value), not 200; the adapter itself never defaults it to 200. -/
theorem c6_status_defaults_to_zero (acts : List HandlerAction)
    (h : hasWriteHeaderAction acts = false) :
    (runHandler acts newResponseReadWriter).statusCode = 0 :=
  runHandler_statusCode_of_no_writeHeader acts newResponseReadWriter h

/-- C6 witness: the amended statement at a concrete trace. -/
theorem c6_witness :
    hasWriteHeaderAction [.write [104]] = false ∧
    (runHandler [.write [104]] newResponseReadWriter).statusCode = 0 :=
  ⟨by decide, c6_status_defaults_to_zero [.write [104]] (by decide)⟩

/-- C7: with a nil TTL store and an Age whose Min exceeds its Max,
`NewRouteCache` reports both problems, accumulated in order, not just the
first failure. -/
theorem c7_all_errors_accumulated (a : Age) (h : a.Min > a.Max) :
    (NewRouteCache none a).2 =
      ["route cache is nil", "max age must always be greater than min age"] := by
  unfold NewRouteCache
  simp [h]

/-- C7 witness: both errors reported at a concrete invalid input. -/
theorem c7_witness :
    ({ Min := 1, Max := 0 } : Age).Min > ({ Min := 1, Max := 0 } : Age).Max ∧
    (NewRouteCache none { Min := 1, Max := 0 }).2 =
      ["route cache is nil", "max age must always be greater than min age"] :=
  ⟨by decide, c7_all_errors_accumulated { Min := 1, Max := 0 } (by decide)⟩

/-- C9: sub-second positive boundaries both truncate to zero seconds. -/
theorem c9_subsecond_age_collapses_to_disabled (mi ma : Int)
    (h1 : 0 < mi) (h2 : mi < 1000000000)
    (h3 : 0 < ma) (h4 : ma < 1000000000) :
    Age.toAgeInSeconds { Min := mi, Max := ma } = { min := 0, max := 0 } ∧
    Age.toAgeInSeconds { Min := mi, Max := ma } =
      Age.toAgeInSeconds { Min := 0, Max := 0 } := by
  have e1 : Int.tdiv mi 1000000000 = 0 :=
    Int.tdiv_eq_zero_of_lt (le_of_lt h1) h2
  have e2 : Int.tdiv ma 1000000000 = 0 :=
    Int.tdiv_eq_zero_of_lt (le_of_lt h3) h4
  constructor
  · simp [Age.toAgeInSeconds, e1, e2]
  · simp [Age.toAgeInSeconds, e1, e2]

/-- C9 witness: 500ms bounds yield the same internal age as the disabled
configuration. -/
theorem c9_witness :
    ((0 : Int) < 500000000 ∧ (500000000 : Int) < 1000000000 ∧
      (0 : Int) < 600000000 ∧ (600000000 : Int) < 1000000000) ∧
    (Age.toAgeInSeconds { Min := 500000000, Max := 600000000 } =
        { min := 0, max := 0 } ∧
      Age.toAgeInSeconds { Min := 500000000, Max := 600000000 } =
        Age.toAgeInSeconds { Min := 0, Max := 0 }) :=
  ⟨by decide,
   c9_subsecond_age_collapses_to_disabled 500000000 600000000
     (by decide) (by decide) (by decide) (by decide)⟩

/-- C10 counterexample: after the writes [0, 1] and [2] the first
`ReadAll` succeeds with the non-empty (truncated) body [0], and the
second `ReadAll` returns the leftover byte [1] with a nil error, not an
error. -/
theorem c10_counterexample :
    (runHandler [.write [0, 1], .write [2]] newResponseReadWriter).ReadAll.1 = [0] ∧
    (runHandler [.write [0, 1], .write [2]] newResponseReadWriter).ReadAll.2.1 = none ∧
    (runHandler [.write [0, 1], .write [2]]
        newResponseReadWriter).ReadAll.2.2.ReadAll.2.1 = none ∧
    (runHandler [.write [0, 1], .write [2]]
        newResponseReadWriter).ReadAll.2.2.ReadAll.1 = [1] := by
  decide

/-- C10 amended: after a single `Write` of a non-empty chunk, the first
`ReadAll` returns the chunk with a nil error and drains the buffer, and a
second `ReadAll` on the resulting state returns the EOF error because the
recorded length stays non-zero while the buffer is empty. -/
theorem c10_single_write_single_shot (p : List Nat) (hp : p ≠ []) :
    ((newResponseReadWriter.Write p).2.ReadAll).1 = p ∧
    ((newResponseReadWriter.Write p).2.ReadAll).2.1 = none ∧
    ((newResponseReadWriter.Write p).2.ReadAll).2.2.ReadAll.2.1 = some "EOF" := by
  have hlen : p.length ≠ 0 := by simpa using hp
  have hpos : 0 < p.length := Nat.pos_of_ne_zero hlen
  unfold newResponseReadWriter responseReadWriter.Write
    responseReadWriter.ReadAll responseReadWriter.read
  simp [hlen, hp, hpos]

/-- C10 witness: the amended statement at the one-byte body [7]. -/
theorem c10_witness :
    ([7] : List Nat) ≠ [] ∧
    (((newResponseReadWriter.Write [7]).2.ReadAll).1 = [7] ∧
      ((newResponseReadWriter.Write [7]).2.ReadAll).2.1 = none ∧
      ((newResponseReadWriter.Write [7]).2.ReadAll).2.2.ReadAll.2.1 = some "EOF") :=
  ⟨by decide, c10_single_write_single_shot [7] (by decide)⟩

/-- The recorded length never exceeds the buffered byte count: `Write`
appends the chunk whose length it records, and no other action touches
either field. -/
theorem runHandler_len_le_buffer (acts : List HandlerAction)
    (rw : responseReadWriter) (h : rw.len ≤ rw.buffer.length) :
    (runHandler acts rw).len ≤ (runHandler acts rw).buffer.length := by
  induction acts generalizing rw with
  | nil => exact h
  | cons a t ih =>
      cases a with
      | write p =>
          refine ih _ ?_
          simp [runAction, responseReadWriter.Write]
      | writeHeader sc => exact ih _ h
      | setHeader k v => exact ih _ h
      | addHeader k v => exact ih _ h

/-- `ReadAll` reports a nil error on any adapter state whose recorded
length is covered by the buffer. -/
theorem readAll_err_none (rw : responseReadWriter)
    (h : rw.len ≤ rw.buffer.length) : rw.ReadAll.2.1 = none := by
  unfold responseReadWriter.ReadAll responseReadWriter.read
  by_cases h0 : rw.len = 0
  · simp [h0]
  · have hb : rw.buffer ≠ [] := by
      intro hnil
      apply h0
      have hle := h
      rw [hnil] at hle
      simpa using hle
    simp [h0, hb]

/-- A fresh execution through `httpExecutor` always produces a nil-error
response, so its ETag is always the fingerprint of the key and the
generation nanosecond, independent of the handler. -/
theorem httpExecutor_etag (acts : List HandlerAction) (nanos : Nat)
    (now : Int) (key : String) :
    (httpExecutor acts nanos now key).Etag = generateETag key nanos := by
  unfold httpExecutor
  have h := readAll_err_none (runHandler acts newResponseReadWriter)
    (runHandler_len_le_buffer acts newResponseReadWriter (by simp [newResponseReadWriter]))
  simp only [h]

/-- C4 counterexample: two executions with the same key and generation
time but different payloads produce the same ETag. -/
theorem c4_counterexample :
    (httpExecutor [.write [97]] 5 0 "k").Response.Bytes ≠
      (httpExecutor [.write [98]] 5 0 "k").Response.Bytes ∧
    (httpExecutor [.write [97]] 5 0 "k").Etag =
      (httpExecutor [.write [98]] 5 0 "k").Etag := by
  decide

/-- C4 amended: the ETag is a function of the key and the generation time
only — any two handler executions with the same key and nanosecond
reading yield identical ETags, whatever their payloads. -/
theorem c4_etag_ignores_payload (acts1 acts2 : List HandlerAction)
    (nanos : Nat) (now : Int) (key : String) :
    (httpExecutor acts1 nanos now key).Etag =
      (httpExecutor acts2 nanos now key).Etag := by
  rw [httpExecutor_etag, httpExecutor_etag]

/-- C5 counterexample: a failing execution comes back to the caller
wrapped in the cache-processor context message, not untouched. -/
theorem c5_counterexample :
    (HandlerWith (fun _ _ => { Err := some "boom" }) { min := 0, max := 60 }
        [] 0 { key := "k" } {}).err =
      some "could not handle request with the cache processor: boom" ∧
    (HandlerWith (fun _ _ => { Err := some "boom" }) { min := 0, max := 60 }
        [] 0 { key := "k" } {}).err ≠ some "boom" := by
  decide

/-- C5 amended: for every request on which the wrapped handler is
actually executed (a bypass route, a miss with no entry, or a miss with a
present-but-stale entry — every outcome except a HIT, which runs no
handler) and that execution fails, the failure is returned to the caller
wrapped in the cache-processor context message, nothing is written to the
outgoing response, and nothing is written to the store: the store —
including any present stale entry — is left exactly as it was. -/
theorem c5_executor_error_never_cached (exec : executor) (ag : age)
    (store : TTLCache) (now : Int) (req : cacheRequest) (sink : Sink)
    (e : String) (herr : (exec now req.key).Err = some e)
    (hinv : (HandlerWith exec ag store now req sink).invoked = true) :
    HandlerWith exec ag store now req sink =
      { err := some ("could not handle request with the cache processor: " ++ e)
        sink := sink, store := store, oc := .fail, invoked := true } := by
  by_cases h : ag.min = 0 ∧ ag.max = 0
  · unfold HandlerWith cacheHandler
    simp [h, herr]
  · rcases hlook : List.lookup req.key store with _ | entry
    · unfold HandlerWith cacheHandler cacheMiss
      simp [h, hlook, herr]
    · by_cases hfresh : now - entry.LastValid ≤ effMaxAge ag req ∧
          effMinFresh ag req ≤ effMaxAge ag req - (now - entry.LastValid)
      · exfalso
        unfold HandlerWith cacheHandler at hinv
        simp [h, hlook, hfresh] at hinv
      · unfold HandlerWith cacheHandler cacheMiss
        simp only [if_neg h, hlook]
        rw [if_neg hfresh]
        simp [herr]

/-- C5 witness: the amended statement at a concrete failing executor,
with a present-but-stale entry in the store (age 100 against a 60-second
route maximum forces a MISS) that the failure leaves in place. -/
theorem c5_witness :
    ((fun _ _ => { Err := some "boom" } : executor) 100
        ({ key := "k" } : cacheRequest).key).Err = some "boom" ∧
    (HandlerWith (fun _ _ => { Err := some "boom" }) { min := 0, max := 60 }
        [("k", { Response := { Bytes := [120], Header := [] }
                 LastValid := 0, Etag := "e", Err := none })]
        100 { key := "k" } {}).invoked = true ∧
    HandlerWith (fun _ _ => { Err := some "boom" }) { min := 0, max := 60 }
        [("k", { Response := { Bytes := [120], Header := [] }
                 LastValid := 0, Etag := "e", Err := none })]
        100 { key := "k" } {} =
      { err := some ("could not handle request with the cache processor: " ++ "boom")
        sink := {}
        store := [("k", { Response := { Bytes := [120], Header := [] }
                          LastValid := 0, Etag := "e", Err := none })]
        oc := .fail, invoked := true } :=
  ⟨by decide, by decide,
   c5_executor_error_never_cached (fun _ _ => { Err := some "boom" })
     { min := 0, max := 60 }
     [("k", { Response := { Bytes := [120], Header := [] }
              LastValid := 0, Etag := "e", Err := none })]
     100 { key := "k" } {} "boom"
     (by decide) (by decide)⟩

/-- A trace of only `writeHeader` steps leaves buffer, length and headers
untouched. -/
theorem runHandler_statusOnly (acts : List HandlerAction)
    (rw : responseReadWriter) (h : statusOnlyActions acts = true) :
    (runHandler acts rw).buffer = rw.buffer ∧
    (runHandler acts rw).len = rw.len ∧
    (runHandler acts rw).header = rw.header := by
  induction acts generalizing rw with
  | nil => exact ⟨rfl, rfl, rfl⟩
  | cons a t ih =>
      cases a with
      | write p => simp [statusOnlyActions] at h
      | writeHeader sc => exact ih _ h
      | setHeader k v => simp [statusOnlyActions] at h
      | addHeader k v => simp [statusOnlyActions] at h

/-- C8: a handler execution that writes neither body bytes nor headers
produces an empty-body, empty-header snapshot with a nil error. -/
theorem c8_empty_execution_snapshot (acts : List HandlerAction)
    (nanos : Nat) (now : Int) (key : String)
    (h : statusOnlyActions acts = true) :
    httpExecutor acts nanos now key =
      { Response := { Bytes := [], Header := [] }, LastValid := now
        Etag := generateETag key nanos, Err := none } := by
  obtain ⟨hb, hl, hh⟩ := runHandler_statusOnly acts newResponseReadWriter h
  unfold httpExecutor
  simp only [responseReadWriter.ReadAll, hb, hl, hh]
  simp [newResponseReadWriter]

/-- C8 witness: a handler that only records a status code yields the
empty snapshot. -/
theorem c8_witness :
    statusOnlyActions [.writeHeader 204] = true ∧
    httpExecutor [.writeHeader 204] 5 3 "k" =
      { Response := { Bytes := [], Header := [] }, LastValid := 3
        Etag := generateETag "k" 5, Err := none } :=
  ⟨by decide, c8_empty_execution_snapshot [.writeHeader 204] 5 3 "k" (by decide)⟩

/-- C1 counterexample: a handler that sets status 404 is cached on the
first request (MISS); at store time the capture adapter recorded status
404, but the second, HIT request writes no status code at all to the
outgoing response (the transport's default applies), so the status
written is not the status captured. -/
theorem c1_counterexample :
    (Handler [.writeHeader 404, .write [120]] 6 { min := 0, max := 60 }
        (Handler [.writeHeader 404, .write [120]] 5 { min := 0, max := 60 }
          [] 0 { key := "k" } {}).store
        10 { key := "k" } {}).oc = .hit ∧
    (runHandler [.writeHeader 404, .write [120]]
        newResponseReadWriter).statusCode = 404 ∧
    (Handler [.writeHeader 404, .write [120]] 6 { min := 0, max := 60 }
        (Handler [.writeHeader 404, .write [120]] 5 { min := 0, max := 60 }
          [] 0 { key := "k" } {}).store
        10 { key := "k" } {}).sink.status = none ∧
    (Handler [.writeHeader 404, .write [120]] 6 { min := 0, max := 60 }
        (Handler [.writeHeader 404, .write [120]] 5 { min := 0, max := 60 }
          [] 0 { key := "k" } {}).store
        10 { key := "k" } {}).sink.status ≠ some 404 := by
  decide

/-- C1 amended: on every HIT (entry present, its age within the effective
max-age, remaining freshness at least the effective min-fresh) the handler
is not invoked and the store is untouched; the stored body is appended
verbatim to the outgoing response and every stored header key is set to
its first stored value, but no status code is written — the capture's
recorded status is neither stored nor replayed. -/
theorem c1_hit_serves_stored_entry (exec : executor) (ag : age)
    (store : TTLCache) (now : Int) (req : cacheRequest) (sink : Sink)
    (entry : response)
    (hzero : ¬(ag.min = 0 ∧ ag.max = 0))
    (hfound : List.lookup req.key store = some entry)
    (hage : now - entry.LastValid ≤ effMaxAge ag req)
    (hfresh : effMinFresh ag req ≤ effMaxAge ag req - (now - entry.LastValid)) :
    HandlerWith exec ag store now req sink =
      { err := none
        sink :=
          { header := replayHeaders sink.header entry.Response.Header
            body := sink.body ++ entry.Response.Bytes
            status := sink.status }
        store := store, oc := .hit, invoked := false } := by
  unfold HandlerWith cacheHandler
  simp [hzero, hfound, hage, hfresh]

/-- C1 witness: the amended statement at a concrete stored entry whose
capture had status 404 and a two-valued header. -/
theorem c1_witness :
    (¬(({ min := 0, max := 60 } : age).min = 0 ∧
        ({ min := 0, max := 60 } : age).max = 0)) ∧
    List.lookup ({ key := "k" } : cacheRequest).key
        ([("k", { Response := { Bytes := [120], Header := [("X-A", ["u", "v"])] }
                  LastValid := 0, Etag := "e", Err := none })] : TTLCache) =
      some { Response := { Bytes := [120], Header := [("X-A", ["u", "v"])] }
             LastValid := 0, Etag := "e", Err := none } ∧
    HandlerWith (httpExecutor [] 0) { min := 0, max := 60 }
        [("k", { Response := { Bytes := [120], Header := [("X-A", ["u", "v"])] }
                 LastValid := 0, Etag := "e", Err := none })]
        10 { key := "k" } {} =
      { err := none
        sink :=
          { header := replayHeaders ({} : Sink).header [("X-A", ["u", "v"])]
            body := ({} : Sink).body ++ [120]
            status := ({} : Sink).status }
        store := [("k", { Response := { Bytes := [120], Header := [("X-A", ["u", "v"])] }
                          LastValid := 0, Etag := "e", Err := none })]
        oc := .hit, invoked := false } :=
  ⟨by decide, by decide,
   c1_hit_serves_stored_entry (httpExecutor [] 0) { min := 0, max := 60 }
     [("k", { Response := { Bytes := [120], Header := [("X-A", ["u", "v"])] }
              LastValid := 0, Etag := "e", Err := none })]
     10 { key := "k" } {}
     { Response := { Bytes := [120], Header := [("X-A", ["u", "v"])] }
       LastValid := 0, Etag := "e", Err := none }
     (by decide) (by decide) (by decide) (by decide)⟩
